import Mathlib

/-!
Shallow embedding of the task-manager backend core (permission rules,
task / comment / notification services, and the due-date notification
generator) together with proofs of the specification claims.

Python datetimes are modelled as microsecond timestamps (`Int`) carrying an
awareness flag; the database is a record of entity lists with explicit
auto-increment counters; every fallible service operation returns
`Except ApiError`.  Timestamp bookkeeping fields (`created_at`,
`updated_at`) and result ordering are not modelled: no claim refers to them.
-/

namespace TaskManager

/-- `UserRole` enum from `src/models/user.py`. -/
inductive UserRole where
  | owner
  | member
deriving DecidableEq

/-- `TaskStatus` enum from `src/models/task.py`. -/
inductive TaskStatus where
  | todo
  | in_progress
  | done
deriving DecidableEq

/-- `NotificationType` enum from `src/models/notification.py`. -/
inductive NotificationType where
  | due_soon
  | overdue
  | due_today
deriving DecidableEq

/-- A Python `datetime`: microseconds since the epoch as read in UTC, plus
whether the value is timezone-aware (`tzinfo` set). -/
structure PyDateTime where
  usec : Int
  aware : Bool
deriving DecidableEq

/-- `User` model from `src/models/user.py` (password hash and `created_at`
omitted: no claim touches them). -/
structure User where
  id : Nat
  email : String
  role : UserRole
  is_active : Bool
deriving DecidableEq

/-- `Task` model from `src/models/task.py`. -/
structure Task where
  id : Nat
  title : String
  description : Option String
  status : TaskStatus
  due_date : Option PyDateTime
  owner_id : Nat
deriving DecidableEq

/-- `Comment` model from `src/models/comment.py`. -/
structure Comment where
  id : Nat
  content : String
  task_id : Nat
  author_id : Nat
deriving DecidableEq

/-- `Notification` model from `src/models/notification.py`. -/
structure Notification where
  id : Nat
  message : String
  notification_type : NotificationType
  is_read : Bool
  user_id : Nat
  task_id : Nat
deriving DecidableEq

/-- The persistent state: one list per table plus auto-increment counters. -/
structure DB where
  users : List User
  tasks : List Task
  comments : List Comment
  notifications : List Notification
  next_task_id : Nat
  next_comment_id : Nat
  next_notification_id : Nat
deriving DecidableEq

/-- A raised `HTTPException`, keyed by status code family and detail string
(`src/core/errors.py` holds the detail strings). -/
inductive ApiError where
  | forbidden (detail : String)
  | notFound (detail : String)
  | badRequest (detail : String)
deriving DecidableEq

/-- HTTP status code carried by each error kind. -/
def ApiError.statusCode : ApiError → Nat
  | .forbidden _ => 403
  | .notFound _ => 404
  | .badRequest _ => 400

/-- Error message constants from `src/core/errors.py`. -/
def ERROR_OWNER_ROLE_REQUIRED : String := "This action requires OWNER role"

def ERROR_TASK_NOT_FOUND : String := "Task not found"

def ERROR_COMMENT_NOT_FOUND : String := "Comment not found"

def ERROR_NOTIFICATION_NOT_FOUND : String := "Notification not found"

def ERROR_NO_TASK_ACCESS : String := "You do not have permission to access this task"

def ERROR_INACTIVE_USER_CREATE_TASK : String := "Inactive users cannot create tasks"

def ERROR_ASSIGN_INACTIVE_USER : String := "Cannot assign task to inactive user"

def ERROR_NEW_OWNER_NOT_FOUND : String := "New owner not found"

/-- `require_owner_role` from `src/core/permissions.py`: 403 unless the
caller has the OWNER role. -/
def require_owner_role (user : User) : Except ApiError Unit :=
  if user.role != UserRole.owner then
    .error (.forbidden ERROR_OWNER_ROLE_REQUIRED)
  else
    .ok ()

/-- `can_user_access_task` from `src/core/permissions.py`. -/
def can_user_access_task (user : User) (task : Task) : Bool :=
  task.owner_id == user.id || user.role == UserRole.owner

/-- `require_task_access` from `src/core/permissions.py`: raises **403**
(`ERROR_NO_TASK_ACCESS`) on denial. -/
def require_task_access (user : User) (task : Task) : Except ApiError Unit :=
  if !can_user_access_task user task then
    .error (.forbidden ERROR_NO_TASK_ACCESS)
  else
    .ok ()

/-- `can_user_modify_task` from `src/core/permissions.py`. -/
def can_user_modify_task (user : User) (task : Task) : Bool :=
  task.owner_id == user.id || user.role == UserRole.owner

/-- `require_task_modification` from `src/core/permissions.py`: raises
**404** (`ERROR_TASK_NOT_FOUND`) on denial, masking existence. -/
def require_task_modification (user : User) (task : Task) : Except ApiError Unit :=
  if !can_user_modify_task user task then
    .error (.notFound ERROR_TASK_NOT_FOUND)
  else
    .ok ()

/-- `can_user_modify_comment` from `src/core/permissions.py`: author only. -/
def can_user_modify_comment (user : User) (comment : Comment) : Bool :=
  comment.author_id == user.id

/-- `require_comment_modification` from `src/core/permissions.py`. -/
def require_comment_modification (user : User) (comment : Comment) : Except ApiError Unit :=
  if !can_user_modify_comment user comment then
    .error (.notFound ERROR_COMMENT_NOT_FOUND)
  else
    .ok ()

/-- `can_user_delete_comment` from `src/core/permissions.py`: author or
OWNER role. -/
def can_user_delete_comment (user : User) (comment : Comment) : Bool :=
  comment.author_id == user.id || user.role == UserRole.owner

/-- `require_comment_deletion` from `src/core/permissions.py`. -/
def require_comment_deletion (user : User) (comment : Comment) : Except ApiError Unit :=
  if !can_user_delete_comment user comment then
    .error (.notFound ERROR_COMMENT_NOT_FOUND)
  else
    .ok ()

/-- `can_user_access_notification` from `src/core/permissions.py`:
recipient only, no role override. -/
def can_user_access_notification (user : User) (notification : Notification) : Bool :=
  notification.user_id == user.id

/-- `require_notification_access` from `src/core/permissions.py`. -/
def require_notification_access (user : User) (notification : Notification) : Except ApiError Unit :=
  if !can_user_access_notification user notification then
    .error (.notFound ERROR_NOTIFICATION_NOT_FOUND)
  else
    .ok ()

/-- `TaskCreate` schema from `src/schemas/task.py` (validated payload;
status defaults to TODO). -/
structure TaskCreate where
  title : String
  description : Option String := none
  status : TaskStatus := TaskStatus.todo
  due_date : Option PyDateTime := none
deriving DecidableEq

/-- `TaskUpdate` schema from `src/schemas/task.py`: every field optional,
and `model_dump(exclude_unset=True)` applies only the fields the caller
actually sent.  An outer `none` means "field absent from the payload". -/
structure TaskUpdate where
  title : Option String := none
  description : Option (Option String) := none
  status : Option TaskStatus := none
  due_date : Option (Option PyDateTime) := none
deriving DecidableEq

/-- `CommentCreate` schema from `src/schemas/comment.py`. -/
structure CommentCreate where
  content : String
deriving DecidableEq

/-- `TaskRepository.get_by_id` from `src/repositories/task.py`. -/
def TaskRepository.get_by_id (db : DB) (id : Nat) : Option Task :=
  db.tasks.find? (fun t => t.id == id)

/-- `TaskRepository.get_by_id_and_owner` from `src/repositories/task.py`. -/
def TaskRepository.get_by_id_and_owner (db : DB) (id owner_id : Nat) : Option Task :=
  db.tasks.find? (fun t => t.id == id && t.owner_id == owner_id)

/-- `TaskRepository.get_all` from `src/repositories/task.py`
(offset/limit pagination over all tasks). -/
def TaskRepository.get_all (db : DB) (skip limit : Nat) : List Task :=
  ((db.tasks.drop skip).take limit)

/-- `TaskRepository.get_multi_by_owner` from `src/repositories/task.py`
(`WHERE owner_id = ?` plus offset/limit). -/
def TaskRepository.get_multi_by_owner (db : DB) (owner_id skip limit : Nat) : List Task :=
  (((db.tasks.filter (fun t => t.owner_id == owner_id)).drop skip).take limit)

/-- `TaskRepository.create` from `src/repositories/task.py`: insert a row
with an auto-generated id and the given owner. -/
def TaskRepository.create (db : DB) (obj_in : TaskCreate) (owner_id : Nat) : DB × Task :=
  let t : Task :=
    { id := db.next_task_id
      title := obj_in.title
      description := obj_in.description
      status := obj_in.status
      due_date := obj_in.due_date
      owner_id := owner_id }
  ({ db with tasks := db.tasks ++ [t], next_task_id := db.next_task_id + 1 }, t)

/-- The field loop of `TaskRepository.update`: apply exactly the fields
present in the payload (`exclude_unset=True`), leaving the rest untouched. -/
def applyTaskUpdate (obj_in : TaskUpdate) (t : Task) : Task :=
  { t with
    title := obj_in.title.getD t.title
    description := obj_in.description.getD t.description
    status := obj_in.status.getD t.status
    due_date := obj_in.due_date.getD t.due_date }

/-- `TaskRepository.update` from `src/repositories/task.py`: partial update
of the stored row. -/
def TaskRepository.update (db : DB) (db_obj : Task) (obj_in : TaskUpdate) : DB × Task :=
  let updated := applyTaskUpdate obj_in db_obj
  ({ db with tasks := db.tasks.map (fun t => if t.id == db_obj.id then updated else t) },
   updated)

/-- `TaskRepository.delete` from `src/repositories/task.py`: hard delete
with cascade to the task's comments and notifications. -/
def TaskRepository.delete (db : DB) (db_obj : Task) : DB :=
  { db with
    tasks := db.tasks.filter (fun t => t.id != db_obj.id)
    comments := db.comments.filter (fun c => c.task_id != db_obj.id)
    notifications := db.notifications.filter (fun n => n.task_id != db_obj.id) }

/-- `TaskRepository.change_owner` from `src/repositories/task.py`:
reassign `owner_id` on the stored row. -/
def TaskRepository.change_owner (db : DB) (task : Task) (new_owner_id : Nat) : DB × Task :=
  let updated := { task with owner_id := new_owner_id }
  ({ db with tasks := db.tasks.map (fun t => if t.id == task.id then updated else t) },
   updated)

/-- `UserRepository.get_by_id` from `src/repositories/user.py` (fetches
regardless of active status). -/
def UserRepository.get_by_id (db : DB) (id : Nat) : Option User :=
  db.users.find? (fun u => u.id == id)

/-- `CommentRepository.get_by_id` from `src/repositories/comment.py`. -/
def CommentRepository.get_by_id (db : DB) (id : Nat) : Option Comment :=
  db.comments.find? (fun c => c.id == id)

/-- `CommentRepository.get_by_task` from `src/repositories/comment.py`
(comments of one task with offset/limit; the created_at ordering is not
modelled). -/
def CommentRepository.get_by_task (db : DB) (task_id skip limit : Nat) : List Comment :=
  (((db.comments.filter (fun c => c.task_id == task_id)).drop skip).take limit)

/-- `NotificationRepository.get_by_id` from `src/repositories/notification.py`. -/
def NotificationRepository.get_by_id (db : DB) (notification_id : Nat) : Option Notification :=
  db.notifications.find? (fun n => n.id == notification_id)

/-- `NotificationRepository.create` from `src/repositories/notification.py`:
insert an unread notification with an auto-generated id. -/
def NotificationRepository.create (db : DB) (user_id task_id : Nat)
    (notification_type : NotificationType) (message : String) : DB × Notification :=
  let n : Notification :=
    { id := db.next_notification_id
      message := message
      notification_type := notification_type
      is_read := false
      user_id := user_id
      task_id := task_id }
  ({ db with
      notifications := db.notifications ++ [n]
      next_notification_id := db.next_notification_id + 1 }, n)

/-- `NotificationRepository.mark_as_read` from
`src/repositories/notification.py`: set `is_read = True` on the stored row. -/
def NotificationRepository.mark_as_read (db : DB) (notification : Notification) :
    DB × Notification :=
  let updated := { notification with is_read := true }
  ({ db with
      notifications := db.notifications.map
        (fun n => if n.id == notification.id then updated else n) }, updated)

/-- `NotificationRepository.delete` from `src/repositories/notification.py`. -/
def NotificationRepository.delete (db : DB) (notification : Notification) : DB :=
  { db with notifications := db.notifications.filter (fun n => n.id != notification.id) }

/-- `NotificationRepository.exists_for_task_and_type` from
`src/repositories/notification.py`: does an **unread** notification of this
(task, type) pair exist? -/
def NotificationRepository.exists_for_task_and_type (db : DB) (task_id : Nat)
    (notification_type : NotificationType) : Bool :=
  db.notifications.any (fun n =>
    n.task_id == task_id && n.notification_type == notification_type && n.is_read == false)

/-- `TaskService.create_task` from `src/services/task.py`: inactive callers
are rejected with 403 before anything is persisted. -/
def TaskService.create_task (db : DB) (task_data : TaskCreate) (current_user : User) :
    Except ApiError (DB × Task) :=
  if !current_user.is_active then
    .error (.forbidden ERROR_INACTIVE_USER_CREATE_TASK)
  else
    .ok (TaskRepository.create db task_data current_user.id)

/-- `TaskService.get_tasks_for_user` from `src/services/task.py`. -/
def TaskService.get_tasks_for_user (db : DB) (user : User) (skip limit : Nat)
    (only_mine : Bool) : List Task :=
  if only_mine || user.role != UserRole.owner then
    TaskRepository.get_multi_by_owner db user.id skip limit
  else
    TaskRepository.get_all db skip limit

/-- `TaskService.get_task_by_id_for_user` from `src/services/task.py`:
strict-ownership read path. -/
def TaskService.get_task_by_id_for_user (db : DB) (task_id : Nat) (user : User) :
    Except ApiError Task :=
  match TaskRepository.get_by_id_and_owner db task_id user.id with
  | none => .error (.notFound ERROR_TASK_NOT_FOUND)
  | some task => .ok task

/-- `TaskService.get_task_for_action` from `src/services/task.py`: fetch by
id, 404 if absent, then `require_task_modification`. -/
def TaskService.get_task_for_action (db : DB) (task_id : Nat) (user : User) :
    Except ApiError Task :=
  match TaskRepository.get_by_id db task_id with
  | none => .error (.notFound ERROR_TASK_NOT_FOUND)
  | some task =>
    match require_task_modification user task with
    | .error e => .error e
    | .ok _ => .ok task

/-- `TaskService.change_task_owner` from `src/services/task.py`. -/
def TaskService.change_task_owner (db : DB) (task_id new_owner_id : Nat)
    (current_user : User) : Except ApiError (DB × Task) :=
  match require_owner_role current_user with
  | .error e => .error e
  | .ok _ =>
    match TaskRepository.get_by_id db task_id with
    | none => .error (.notFound ERROR_TASK_NOT_FOUND)
    | some task =>
      match UserRepository.get_by_id db new_owner_id with
      | none => .error (.notFound ERROR_NEW_OWNER_NOT_FOUND)
      | some new_owner =>
        if !new_owner.is_active then
          .error (.badRequest ERROR_ASSIGN_INACTIVE_USER)
        else
          .ok (TaskRepository.change_owner db task new_owner_id)

/-- `TaskService.update_task` from `src/services/task.py`. -/
def TaskService.update_task (db : DB) (task_id : Nat) (task_in : TaskUpdate)
    (current_user : User) : Except ApiError (DB × Task) :=
  match TaskService.get_task_for_action db task_id current_user with
  | .error e => .error e
  | .ok task => .ok (TaskRepository.update db task task_in)

/-- `TaskService.delete_task` from `src/services/task.py`. -/
def TaskService.delete_task (db : DB) (task_id : Nat) (current_user : User) :
    Except ApiError DB :=
  match TaskService.get_task_for_action db task_id current_user with
  | .error e => .error e
  | .ok task => .ok (TaskRepository.delete db task)

/-- `CommentService.get_task_comments` from `src/services/comment.py`:
404 if the task is absent, then `require_task_access` (403 on denial). -/
def CommentService.get_task_comments (db : DB) (task_id : Nat) (current_user : User)
    (skip limit : Nat) : Except ApiError (List Comment) :=
  match TaskRepository.get_by_id db task_id with
  | none => .error (.notFound ERROR_TASK_NOT_FOUND)
  | some task =>
    match require_task_access current_user task with
    | .error e => .error e
    | .ok _ => .ok (CommentRepository.get_by_task db task_id skip limit)

/-- `CommentRepository.create` from `src/repositories/comment.py`
(author forced to the caller by the service). -/
def CommentRepository.create (db : DB) (task_id author_id : Nat)
    (comment_in : CommentCreate) : DB × Comment :=
  let c : Comment :=
    { id := db.next_comment_id
      content := comment_in.content
      task_id := task_id
      author_id := author_id }
  ({ db with comments := db.comments ++ [c], next_comment_id := db.next_comment_id + 1 }, c)

/-- `CommentService.create_comment` from `src/services/comment.py`: same
existence + access checks as listing, then insert. -/
def CommentService.create_comment (db : DB) (task_id : Nat) (comment_in : CommentCreate)
    (current_user : User) : Except ApiError (DB × Comment) :=
  match TaskRepository.get_by_id db task_id with
  | none => .error (.notFound ERROR_TASK_NOT_FOUND)
  | some task =>
    match require_task_access current_user task with
    | .error e => .error e
    | .ok _ => .ok (CommentRepository.create db task_id current_user.id comment_in)

/-- `NotificationService.mark_notification_as_read` from
`src/services/notification.py`. -/
def NotificationService.mark_notification_as_read (db : DB) (notification_id : Nat)
    (current_user : User) : Except ApiError (DB × Notification) :=
  match NotificationRepository.get_by_id db notification_id with
  | none => .error (.notFound ERROR_NOTIFICATION_NOT_FOUND)
  | some notification =>
    match require_notification_access current_user notification with
    | .error e => .error e
    | .ok _ => .ok (NotificationRepository.mark_as_read db notification)

/-- `NotificationService.delete_notification` from
`src/services/notification.py`. -/
def NotificationService.delete_notification (db : DB) (notification_id : Nat)
    (current_user : User) : Except ApiError DB :=
  match NotificationRepository.get_by_id db notification_id with
  | none => .error (.notFound ERROR_NOTIFICATION_NOT_FOUND)
  | some notification =>
    match require_notification_access current_user notification with
    | .error e => .error e
    | .ok _ => .ok (NotificationRepository.delete db notification)

/-- Microseconds in one day. -/
def usecPerDay : Int := 86400000000

/-- Microseconds in 23:59:59.999999, the last instant of a day. -/
def endOfDayOffset : Int := 86399999999

/-- `now.replace(hour=23, minute=59, second=59, microsecond=999999)` for a
UTC-aware timestamp: the last microsecond of the current UTC day. -/
def todayEnd (now : Int) : Int :=
  now - now % usecPerDay + endOfDayOffset

/-- `today_end + timedelta(days=1)`. -/
def tomorrowEnd (now : Int) : Int :=
  todayEnd now + usecPerDay

/-- `task_due_date.replace(tzinfo=timezone.utc)` applied when the stored
datetime is naive (the wall-clock value is reinterpreted as UTC). -/
def normalizeUTC (d : PyDateTime) : PyDateTime :=
  if d.aware then d else { d with aware := true }

/-- The `WHERE due_date IS NOT NULL AND status != DONE` filter of
`generate_due_date_notifications`. -/
def dueTaskFilter (t : Task) : Bool :=
  t.due_date.isSome && t.status != TaskStatus.done

/-- Per-bucket creation counters returned by the generator. -/
structure DueCounts where
  due_today : Nat
  due_soon : Nat
  overdue : Nat
deriving DecidableEq

/-- Sum of the per-bucket counters (the implicit total). -/
def DueCounts.total (c : DueCounts) : Nat :=
  c.due_today + c.due_soon + c.overdue

/-- Loop state of the generator: the evolving database plus the counters. -/
structure GenState where
  db : DB
  counts : DueCounts
deriving DecidableEq

/-- The loop body of `generate_due_date_notifications`
(`src/services/notification.py`): normalize the due date, classify by
first-match precedence, skip when an unread notification of the classified
(task, type) pair exists, otherwise create one for the task owner. -/
def processDueTask (now : Int) (s : GenState) (task : Task) : GenState :=
  match task.due_date with
  | none => s
  | some d =>
    let dd := normalizeUTC d
    if dd.usec < now then
      if NotificationRepository.exists_for_task_and_type s.db task.id
          NotificationType.overdue then s
      else
        let r := NotificationRepository.create s.db task.owner_id task.id
          NotificationType.overdue ("Task \x27" ++ task.title ++ "\x27 is overdue")
        { db := r.1, counts := { s.counts with overdue := s.counts.overdue + 1 } }
    else if now ≤ dd.usec ∧ dd.usec ≤ todayEnd now then
      if NotificationRepository.exists_for_task_and_type s.db task.id
          NotificationType.due_today then s
      else
        let r := NotificationRepository.create s.db task.owner_id task.id
          NotificationType.due_today ("Task \x27" ++ task.title ++ "\x27 is due today")
        { db := r.1, counts := { s.counts with due_today := s.counts.due_today + 1 } }
    else if todayEnd now < dd.usec ∧ dd.usec ≤ tomorrowEnd now then
      if NotificationRepository.exists_for_task_and_type s.db task.id
          NotificationType.due_soon then s
      else
        let r := NotificationRepository.create s.db task.owner_id task.id
          NotificationType.due_soon ("Task \x27" ++ task.title ++ "\x27 is due soon")
        { db := r.1, counts := { s.counts with due_soon := s.counts.due_soon + 1 } }
    else s

/-- `NotificationService.generate_due_date_notifications` from
`src/services/notification.py`, parameterised by the current UTC time. -/
def NotificationService.generate_due_date_notifications (now : Int) (db : DB) :
    DB × DueCounts :=
  let tasks := db.tasks.filter dueTaskFilter
  let s := tasks.foldl (processDueTask now)
    { db := db, counts := { due_today := 0, due_soon := 0, overdue := 0 } }
  (s.db, s.counts)

/-- Proof-side restatement of the generator's classification chain, used to
phrase the classification properties of the loop body. -/
def classifyDueDate (now : Int) (d : PyDateTime) : Option NotificationType :=
  let dd := normalizeUTC d
  if dd.usec < now then some NotificationType.overdue
  else if now ≤ dd.usec ∧ dd.usec ≤ todayEnd now then some NotificationType.due_today
  else if todayEnd now < dd.usec ∧ dd.usec ≤ tomorrowEnd now then some NotificationType.due_soon
  else none

/-- Modelled from the spec wording of §4.4 step 3: the due-date buckets
written exactly as the specification lists them, over a UTC instant. -/
def spec_classify (now due : Int) : Option NotificationType :=
  if due < now then some NotificationType.overdue
  else if now ≤ due ∧ due ≤ todayEnd now then some NotificationType.due_today
  else if todayEnd now < due ∧ due ≤ tomorrowEnd now then some NotificationType.due_soon
  else none

/-- Concrete OWNER-role user for witnesses. -/
def sampleOwner : User :=
  { id := 1, email := "admin@example.com", role := UserRole.owner, is_active := true }

/-- Concrete MEMBER user owning the sample task. -/
def sampleMember : User :=
  { id := 2, email := "member@example.com", role := UserRole.member, is_active := true }

/-- Concrete MEMBER user owning nothing in the sample database. -/
def sampleMemberB : User :=
  { id := 3, email := "other@example.com", role := UserRole.member, is_active := true }

/-- Concrete inactive user. -/
def sampleInactive : User :=
  { id := 4, email := "gone@example.com", role := UserRole.member, is_active := false }

/-- Concrete task owned by `sampleMember`. -/
def sampleTask : Task :=
  { id := 1, title := "Ship release", description := none, status := TaskStatus.todo
    due_date := none, owner_id := 2 }

/-- Concrete comment authored by `sampleMember`. -/
def sampleComment : Comment :=
  { id := 1, content := "looks good", task_id := 1, author_id := 2 }

/-- Concrete unread notification addressed to `sampleMember`. -/
def sampleNotification : Notification :=
  { id := 1, message := "due", notification_type := NotificationType.overdue
    is_read := false, user_id := 2, task_id := 1 }

/-- Concrete task owned by the inactive user `sampleInactive`. -/
def sampleTaskB : Task :=
  { id := 2, title := "Water plants", description := none, status := TaskStatus.todo
    due_date := none, owner_id := 4 }

/-- Concrete database holding the sample rows. -/
def sampleDB : DB :=
  { users := [sampleOwner, sampleMember, sampleMemberB, sampleInactive]
    tasks := [sampleTask, sampleTaskB]
    comments := [sampleComment]
    notifications := [sampleNotification]
    next_task_id := 3
    next_comment_id := 2
    next_notification_id := 2 }

/-- A payload that sets only the status field. -/
def statusOnlyUpdate : TaskUpdate := { status := some TaskStatus.done }

/-- Claim C7: for every task and user, read access and write access on tasks
are given by the same predicate `owner_id == user.id OR role == OWNER`. -/
theorem task_access_modify_symmetric (u : User) (t : Task) :
    can_user_access_task u t = can_user_modify_task u t := rfl

/-- Claim C3: comment editing is author-only while comment deletion also
admits the OWNER role; a non-author with OWNER role can delete but not
modify, and a non-author without OWNER role can do neither. -/
theorem comment_permission_asymmetry (u : User) (c : Comment) :
    (can_user_modify_comment u c = true ↔ u.id = c.author_id) ∧
    (can_user_delete_comment u c = true ↔ (u.id = c.author_id ∨ u.role = UserRole.owner)) ∧
    (u.id ≠ c.author_id → u.role = UserRole.owner →
      can_user_delete_comment u c = true ∧ can_user_modify_comment u c = false) ∧
    (u.id ≠ c.author_id → u.role ≠ UserRole.owner →
      can_user_delete_comment u c = false ∧ can_user_modify_comment u c = false) := by
  have hmod : can_user_modify_comment u c = true ↔ u.id = c.author_id := by
    simp [can_user_modify_comment]
    exact eq_comm
  have hdel : can_user_delete_comment u c = true ↔
      (u.id = c.author_id ∨ u.role = UserRole.owner) := by
    simp [can_user_delete_comment]
    constructor
    · rintro (h | h)
      · exact Or.inl h.symm
      · exact Or.inr h
    · rintro (h | h)
      · exact Or.inl h.symm
      · exact Or.inr h
  refine ⟨hmod, hdel, ?_, ?_⟩
  · intro hne hrole
    refine ⟨hdel.mpr (Or.inr hrole), ?_⟩
    simp [can_user_modify_comment]
    omega
  · intro hne hrole
    constructor
    · simp [can_user_delete_comment]
      exact ⟨fun h => hne h.symm, hrole⟩
    · simp [can_user_modify_comment]
      omega

/-- Witness for C3: the OWNER-role non-author can delete but not edit the
sample comment. -/
theorem comment_permission_asymmetry_witness :
    can_user_delete_comment sampleOwner sampleComment = true ∧
    can_user_modify_comment sampleOwner sampleComment = false :=
  (comment_permission_asymmetry sampleOwner sampleComment).2.2.1 (by decide) (by decide)

/-- Counterexample to claim C1 as stated: for an existing task the caller
cannot access, listing and creating comments fail with **403 Forbidden**
(`ERROR_NO_TASK_ACCESS`), not 404, because `require_task_access` raises 403. -/
theorem comment_access_denied_403_counterexample :
    can_user_access_task sampleMemberB sampleTask = false ∧
    CommentService.get_task_comments sampleDB 1 sampleMemberB 0 100 =
      Except.error (ApiError.forbidden ERROR_NO_TASK_ACCESS) ∧
    CommentService.create_comment sampleDB 1 { content := "hello" } sampleMemberB =
      Except.error (ApiError.forbidden ERROR_NO_TASK_ACCESS) ∧
    (ApiError.forbidden ERROR_NO_TASK_ACCESS).statusCode = 403 :=
  ⟨rfl, rfl, rfl, rfl⟩

/-- Claim C1 as amended: when the task exists and `can_access_task` is
false, listing the task's comments and creating a comment on it both fail
with Forbidden (HTTP 403, `ERROR_NO_TASK_ACCESS`); only a nonexistent task
id yields NotFound. -/
theorem comment_access_denied_is_forbidden (db : DB) (task_id : Nat) (u : User)
    (t : Task) (ci : CommentCreate) (skip limit : Nat)
    (hget : TaskRepository.get_by_id db task_id = some t)
    (hacc : can_user_access_task u t = false) :
    CommentService.get_task_comments db task_id u skip limit =
      Except.error (ApiError.forbidden ERROR_NO_TASK_ACCESS) ∧
    CommentService.create_comment db task_id ci u =
      Except.error (ApiError.forbidden ERROR_NO_TASK_ACCESS) := by
  unfold CommentService.get_task_comments CommentService.create_comment
  rw [hget]
  simp [require_task_access, hacc]

/-- Witness for the amended C1 at the sample inputs. -/
theorem comment_access_denied_is_forbidden_witness :
    CommentService.get_task_comments sampleDB 1 sampleMemberB 0 100 =
      Except.error (ApiError.forbidden ERROR_NO_TASK_ACCESS) ∧
    CommentService.create_comment sampleDB 1 { content := "hello" } sampleMemberB =
      Except.error (ApiError.forbidden ERROR_NO_TASK_ACCESS) :=
  comment_access_denied_is_forbidden sampleDB 1 sampleMemberB sampleTask
    { content := "hello" } 0 100 (by rfl) (by rfl)

/-- Claim C2: `change_task_owner` checks OWNER role (403), task existence
(404, "Task not found"), new-owner existence (404, distinct "New owner not
found"), and new-owner activity (400) in that order, then reassigns
`owner_id`. -/
theorem change_task_owner_check_order (db : DB) (task_id new_owner_id : Nat) (u : User) :
    (u.role ≠ UserRole.owner →
      TaskService.change_task_owner db task_id new_owner_id u =
        Except.error (ApiError.forbidden ERROR_OWNER_ROLE_REQUIRED)) ∧
    (u.role = UserRole.owner → TaskRepository.get_by_id db task_id = none →
      TaskService.change_task_owner db task_id new_owner_id u =
        Except.error (ApiError.notFound ERROR_TASK_NOT_FOUND)) ∧
    (∀ t, u.role = UserRole.owner → TaskRepository.get_by_id db task_id = some t →
      UserRepository.get_by_id db new_owner_id = none →
      TaskService.change_task_owner db task_id new_owner_id u =
        Except.error (ApiError.notFound ERROR_NEW_OWNER_NOT_FOUND)) ∧
    (∀ t w, u.role = UserRole.owner → TaskRepository.get_by_id db task_id = some t →
      UserRepository.get_by_id db new_owner_id = some w → w.is_active = false →
      TaskService.change_task_owner db task_id new_owner_id u =
        Except.error (ApiError.badRequest ERROR_ASSIGN_INACTIVE_USER)) ∧
    (∀ t w, u.role = UserRole.owner → TaskRepository.get_by_id db task_id = some t →
      UserRepository.get_by_id db new_owner_id = some w → w.is_active = true →
      ∃ db2, TaskService.change_task_owner db task_id new_owner_id u =
        Except.ok (db2, { t with owner_id := new_owner_id })) ∧
    ERROR_TASK_NOT_FOUND ≠ ERROR_NEW_OWNER_NOT_FOUND ∧
    (∀ m, (ApiError.forbidden m).statusCode = 403) ∧
    (∀ m, (ApiError.notFound m).statusCode = 404) ∧
    (∀ m, (ApiError.badRequest m).statusCode = 400) := by
  refine ⟨?_, ?_, ?_, ?_, ?_, by decide, fun m => rfl, fun m => rfl, fun m => rfl⟩
  · intro hrole
    have h1 : (u.role != UserRole.owner) = true := bne_iff_ne.mpr hrole
    unfold TaskService.change_task_owner require_owner_role
    simp [h1]
  · intro hrole hget
    unfold TaskService.change_task_owner require_owner_role
    rw [hrole, hget]
    simp
  · intro t hrole hget huser
    unfold TaskService.change_task_owner require_owner_role
    rw [hrole, hget, huser]
    simp
  · intro t w hrole hget huser hact
    unfold TaskService.change_task_owner require_owner_role
    rw [hrole, hget, huser]
    simp [hact]
  · intro t w hrole hget huser hact
    refine ⟨(TaskRepository.change_owner db t new_owner_id).1, ?_⟩
    unfold TaskService.change_task_owner require_owner_role
    rw [hrole, hget, huser]
    simp [hact, TaskRepository.change_owner]

/-- Witness for C2: a MEMBER caller is rejected with 403 before any lookup. -/
theorem change_task_owner_check_order_witness :
    TaskService.change_task_owner sampleDB 1 3 sampleMember =
      Except.error (ApiError.forbidden ERROR_OWNER_ROLE_REQUIRED) :=
  (change_task_owner_check_order sampleDB 1 3 sampleMember).1 (by decide)

/-- Claim C4: notifications are strictly private — a non-recipient of any
role fails `can_access_notification`, and both `mark_notification_as_read`
and `delete_notification` then fail with NotFound (404). -/
theorem notification_strict_privacy (u : User) (n : Notification)
    (hne : u.id ≠ n.user_id) :
    can_user_access_notification u n = false ∧
    (∀ db nid, NotificationRepository.get_by_id db nid = some n →
      NotificationService.mark_notification_as_read db nid u =
        Except.error (ApiError.notFound ERROR_NOTIFICATION_NOT_FOUND) ∧
      NotificationService.delete_notification db nid u =
        Except.error (ApiError.notFound ERROR_NOTIFICATION_NOT_FOUND)) ∧
    (ApiError.notFound ERROR_NOTIFICATION_NOT_FOUND).statusCode = 404 := by
  have hacc : can_user_access_notification u n = false := by
    simp [can_user_access_notification]
    omega
  refine ⟨hacc, ?_, rfl⟩
  intro db nid hget
  unfold NotificationService.mark_notification_as_read
    NotificationService.delete_notification
  rw [hget]
  simp [require_notification_access, hacc]

/-- Witness for C4: a different member can neither read-mark nor delete the
sample notification. -/
theorem notification_strict_privacy_witness :
    NotificationService.mark_notification_as_read sampleDB 1 sampleMemberB =
      Except.error (ApiError.notFound ERROR_NOTIFICATION_NOT_FOUND) ∧
    NotificationService.delete_notification sampleDB 1 sampleMemberB =
      Except.error (ApiError.notFound ERROR_NOTIFICATION_NOT_FOUND) :=
  (notification_strict_privacy sampleMemberB sampleNotification (by decide)).2.1
    sampleDB 1 (by rfl)

/-- Claim C8: task listing returns only the caller's own tasks when
`only_mine` is set or the caller is not OWNER-role, and a system-wide page
otherwise; a MEMBER never receives a task owned by another user. -/
theorem task_listing_visibility (db : DB) (u : User) (skip limit : Nat)
    (only_mine : Bool) :
    ((only_mine = true ∨ u.role ≠ UserRole.owner) →
      TaskService.get_tasks_for_user db u skip limit only_mine =
        TaskRepository.get_multi_by_owner db u.id skip limit ∧
      ∀ t ∈ TaskService.get_tasks_for_user db u skip limit only_mine,
        t.owner_id = u.id) ∧
    (only_mine = false → u.role = UserRole.owner →
      TaskService.get_tasks_for_user db u skip limit only_mine =
        TaskRepository.get_all db skip limit) := by
  constructor
  · intro h
    have hcond : (only_mine || u.role != UserRole.owner) = true := by
      cases h with
      | inl h => simp [h]
      | inr h => simp [bne_iff_ne.mpr h]
    have heq : TaskService.get_tasks_for_user db u skip limit only_mine =
        TaskRepository.get_multi_by_owner db u.id skip limit := by
      unfold TaskService.get_tasks_for_user
      simp [hcond]
    refine ⟨heq, ?_⟩
    intro t ht
    rw [heq] at ht
    unfold TaskRepository.get_multi_by_owner at ht
    have hsub : List.Sublist
        (((db.tasks.filter (fun x => x.owner_id == u.id)).drop skip).take limit)
        (db.tasks.filter (fun x => x.owner_id == u.id)) :=
      (List.take_sublist _ _).trans (List.drop_sublist _ _)
    have h2 := List.mem_filter.mp (hsub.subset ht)
    exact beq_iff_eq.mp h2.2
  · intro h1 h2
    unfold TaskService.get_tasks_for_user
    rw [h1, h2]
    simp

/-- Witness for C8: a plain MEMBER with `only_mine = false` still gets the
owner-scoped query. -/
theorem task_listing_visibility_witness :
    TaskService.get_tasks_for_user sampleDB sampleMemberB 0 100 false =
      TaskRepository.get_multi_by_owner sampleDB sampleMemberB.id 0 100 :=
  ((task_listing_visibility sampleDB sampleMemberB 0 100 false).1
    (Or.inr (by decide))).1

/-- Claim C9: an authorized partial update applies exactly the provided
fields — any field absent from the payload (title, description, status,
due_date) keeps its previous value, and owner_id is never touched. -/
theorem update_task_frame (db : DB) (task_id : Nat) (u : User) (upd : TaskUpdate)
    (t : Task)
    (hget : TaskRepository.get_by_id db task_id = some t)
    (hmod : can_user_modify_task u t = true) :
    TaskService.update_task db task_id upd u =
      Except.ok (TaskRepository.update db t upd) ∧
    (TaskRepository.update db t upd).2 = applyTaskUpdate upd t ∧
    (upd.title = none → (applyTaskUpdate upd t).title = t.title) ∧
    (upd.description = none → (applyTaskUpdate upd t).description = t.description) ∧
    (upd.status = none → (applyTaskUpdate upd t).status = t.status) ∧
    (upd.due_date = none → (applyTaskUpdate upd t).due_date = t.due_date) ∧
    (applyTaskUpdate upd t).owner_id = t.owner_id := by
  refine ⟨?_, rfl, ?_, ?_, ?_, ?_, rfl⟩
  · unfold TaskService.update_task TaskService.get_task_for_action
    rw [hget]
    simp [require_task_modification, hmod]
  all_goals intro h
  all_goals simp [applyTaskUpdate, h]

/-- Witness for C9: a status-only update of the sample task by its owner
leaves the title unchanged. -/
theorem update_task_frame_witness :
    TaskService.update_task sampleDB 1 statusOnlyUpdate sampleMember =
      Except.ok (TaskRepository.update sampleDB sampleTask statusOnlyUpdate) ∧
    (applyTaskUpdate statusOnlyUpdate sampleTask).title = sampleTask.title :=
  ⟨(update_task_frame sampleDB 1 sampleMember statusOnlyUpdate sampleTask
      (by rfl) (by rfl)).1,
   (update_task_frame sampleDB 1 sampleMember statusOnlyUpdate sampleTask
      (by rfl) (by rfl)).2.2.1 (by rfl)⟩

/-- Claim C10: only task creation checks the caller's active flag — an
inactive caller is rejected with 403 by `create_task`, while `update_task`
and `delete_task` succeed for them whenever the ordinary ownership/role
check passes, and `get_tasks_for_user` ignores the flag entirely. -/
theorem only_create_checks_active (u : User) (hin : u.is_active = false) :
    (∀ db data, TaskService.create_task db data u =
      Except.error (ApiError.forbidden ERROR_INACTIVE_USER_CREATE_TASK)) ∧
    (∀ db task_id upd t, TaskRepository.get_by_id db task_id = some t →
      can_user_modify_task u t = true →
      (∃ r, TaskService.update_task db task_id upd u = Except.ok r) ∧
      (∃ r, TaskService.delete_task db task_id u = Except.ok r)) ∧
    (∀ db skip limit only_mine b,
      TaskService.get_tasks_for_user db { u with is_active := b } skip limit only_mine =
        TaskService.get_tasks_for_user db u skip limit only_mine) := by
  refine ⟨?_, ?_, ?_⟩
  · intro db data
    simp [TaskService.create_task, hin]
  · intro db task_id upd t hget hmod
    have hact : TaskService.get_task_for_action db task_id u = Except.ok t := by
      unfold TaskService.get_task_for_action
      rw [hget]
      simp [require_task_modification, hmod]
    refine ⟨⟨TaskRepository.update db t upd, ?_⟩, ⟨TaskRepository.delete db t, ?_⟩⟩
    · simp [TaskService.update_task, hact]
    · simp [TaskService.delete_task, hact]
  · intro db skip limit only_mine b
    rfl

/-- Witness for C10: the inactive sample user cannot create a task but can
update their own existing task. -/
theorem only_create_checks_active_witness :
    TaskService.create_task sampleDB { title := "new" } sampleInactive =
      Except.error (ApiError.forbidden ERROR_INACTIVE_USER_CREATE_TASK) ∧
    (∃ r, TaskService.update_task sampleDB 2 statusOnlyUpdate sampleInactive =
      Except.ok r) :=
  ⟨(only_create_checks_active sampleInactive (by rfl)).1 sampleDB { title := "new" },
   ((only_create_checks_active sampleInactive (by rfl)).2.1 sampleDB 2
      statusOnlyUpdate sampleTaskB (by rfl) (by rfl)).1⟩

theorem processDueTask_tasks_eq (now : Int) (s : GenState) (t : Task) :
    (processDueTask now s t).db.tasks = s.db.tasks := by
  unfold processDueTask NotificationRepository.create
  cases t.due_date <;> dsimp only
  all_goals first
    | rfl
    | (split_ifs <;> rfl)

theorem processDueTask_notifications_extend (now : Int) (s : GenState) (t : Task) :
    ∃ ex, (processDueTask now s t).db.notifications = s.db.notifications ++ ex := by
  unfold processDueTask NotificationRepository.create
  cases t.due_date <;> dsimp only
  all_goals first
    | exact ⟨[], (List.append_nil _).symm⟩
    | (split_ifs <;> first
        | exact ⟨[], (List.append_nil _).symm⟩
        | exact ⟨_, rfl⟩)

theorem processDueTask_exists_mono (now : Int) (s : GenState) (t : Task)
    (tid : Nat) (ty : NotificationType)
    (h : NotificationRepository.exists_for_task_and_type s.db tid ty = true) :
    NotificationRepository.exists_for_task_and_type (processDueTask now s t).db tid ty
      = true := by
  obtain ⟨ex, hex⟩ := processDueTask_notifications_extend now s t
  unfold NotificationRepository.exists_for_task_and_type at h ⊢
  rw [hex, List.any_append, h, Bool.true_or]

theorem foldl_processDueTask_tasks_eq (now : Int) (l : List Task) (s : GenState) :
    (l.foldl (processDueTask now) s).db.tasks = s.db.tasks := by
  induction l generalizing s with
  | nil => rfl
  | cons t rest ih => rw [List.foldl_cons, ih, processDueTask_tasks_eq]

theorem foldl_processDueTask_exists_mono (now : Int) (l : List Task) (s : GenState)
    (tid : Nat) (ty : NotificationType)
    (h : NotificationRepository.exists_for_task_and_type s.db tid ty = true) :
    NotificationRepository.exists_for_task_and_type
      (l.foldl (processDueTask now) s).db tid ty = true := by
  induction l generalizing s with
  | nil => exact h
  | cons t rest ih =>
    rw [List.foldl_cons]
    exact ih _ (processDueTask_exists_mono now s t tid ty h)

theorem processDueTask_creates_classified (now : Int) (s : GenState) (t : Task)
    (d : PyDateTime) (ty : NotificationType)
    (hd : t.due_date = some d)
    (hc : classifyDueDate now d = some ty) :
    NotificationRepository.exists_for_task_and_type (processDueTask now s t).db t.id ty
      = true := by
  unfold processDueTask
  rw [hd]
  unfold classifyDueDate at hc
  dsimp only at hc ⊢
  by_cases h1 : (normalizeUTC d).usec < now
  · rw [if_pos h1] at hc
    injection hc with hty
    subst hty
    rw [if_pos h1]
    by_cases h2 : NotificationRepository.exists_for_task_and_type s.db t.id
        NotificationType.overdue = true
    · rw [if_pos h2]
      exact h2
    · rw [if_neg h2]
      simp [NotificationRepository.exists_for_task_and_type, NotificationRepository.create]
  · rw [if_neg h1] at hc ⊢
    by_cases h2 : now ≤ (normalizeUTC d).usec ∧ (normalizeUTC d).usec ≤ todayEnd now
    · rw [if_pos h2] at hc
      injection hc with hty
      subst hty
      rw [if_pos h2]
      by_cases h3 : NotificationRepository.exists_for_task_and_type s.db t.id
          NotificationType.due_today = true
      · rw [if_pos h3]
        exact h3
      · rw [if_neg h3]
        simp [NotificationRepository.exists_for_task_and_type, NotificationRepository.create]
    · rw [if_neg h2] at hc ⊢
      by_cases h4 : todayEnd now < (normalizeUTC d).usec ∧
          (normalizeUTC d).usec ≤ tomorrowEnd now
      · rw [if_pos h4] at hc
        injection hc with hty
        subst hty
        rw [if_pos h4]
        by_cases h5 : NotificationRepository.exists_for_task_and_type s.db t.id
            NotificationType.due_soon = true
        · rw [if_pos h5]
          exact h5
        · rw [if_neg h5]
          simp [NotificationRepository.exists_for_task_and_type, NotificationRepository.create]
      · rw [if_neg h4] at hc
        exact absurd hc (by simp)

theorem processDueTask_skip_cases (now : Int) (s : GenState) (t : Task) :
    (t.due_date = none → processDueTask now s t = s) ∧
    (∀ d, t.due_date = some d → classifyDueDate now d = none →
      processDueTask now s t = s) ∧
    (∀ d ty, t.due_date = some d → classifyDueDate now d = some ty →
      NotificationRepository.exists_for_task_and_type s.db t.id ty = true →
      processDueTask now s t = s) := by
  refine ⟨?_, ?_, ?_⟩
  · intro hd
    unfold processDueTask
    rw [hd]
  · intro d hd hc
    unfold processDueTask
    rw [hd]
    unfold classifyDueDate at hc
    dsimp only at hc ⊢
    by_cases h1 : (normalizeUTC d).usec < now
    · rw [if_pos h1] at hc
      exact absurd hc (by simp)
    · rw [if_neg h1] at hc ⊢
      by_cases h2 : now ≤ (normalizeUTC d).usec ∧ (normalizeUTC d).usec ≤ todayEnd now
      · rw [if_pos h2] at hc
        exact absurd hc (by simp)
      · rw [if_neg h2] at hc ⊢
        by_cases h4 : todayEnd now < (normalizeUTC d).usec ∧
            (normalizeUTC d).usec ≤ tomorrowEnd now
        · rw [if_pos h4] at hc
          exact absurd hc (by simp)
        · rw [if_neg h4]
  · intro d ty hd hc hex
    unfold processDueTask
    rw [hd]
    unfold classifyDueDate at hc
    dsimp only at hc ⊢
    by_cases h1 : (normalizeUTC d).usec < now
    · rw [if_pos h1] at hc
      injection hc with hty
      subst hty
      rw [if_pos h1, if_pos hex]
    · rw [if_neg h1] at hc ⊢
      by_cases h2 : now ≤ (normalizeUTC d).usec ∧ (normalizeUTC d).usec ≤ todayEnd now
      · rw [if_pos h2] at hc
        injection hc with hty
        subst hty
        rw [if_pos h2, if_pos hex]
      · rw [if_neg h2] at hc ⊢
        by_cases h4 : todayEnd now < (normalizeUTC d).usec ∧
            (normalizeUTC d).usec ≤ tomorrowEnd now
        · rw [if_pos h4] at hc
          injection hc with hty
          subst hty
          rw [if_pos h4, if_pos hex]
        · rw [if_neg h4]

theorem foldl_processDueTask_all_classified_exist (now : Int) (l : List Task)
    (s : GenState) :
    ∀ t ∈ l, ∀ d ty, t.due_date = some d → classifyDueDate now d = some ty →
      NotificationRepository.exists_for_task_and_type
        (l.foldl (processDueTask now) s).db t.id ty = true := by
  induction l generalizing s with
  | nil =>
    intro t ht
    cases ht
  | cons a rest ih =>
    intro t ht d ty hd hc
    rw [List.foldl_cons]
    rcases List.mem_cons.mp ht with rfl | hmem
    · exact foldl_processDueTask_exists_mono now rest _ t.id ty
        (processDueTask_creates_classified now s t d ty hd hc)
    · exact ih (processDueTask now s a) t hmem d ty hd hc

theorem foldl_processDueTask_noop (now : Int) (l : List Task) (s : GenState)
    (h : ∀ t ∈ l, ∀ d ty, t.due_date = some d → classifyDueDate now d = some ty →
      NotificationRepository.exists_for_task_and_type s.db t.id ty = true) :
    l.foldl (processDueTask now) s = s := by
  induction l generalizing s with
  | nil => rfl
  | cons a rest ih =>
    have ha : processDueTask now s a = s := by
      rcases hd : a.due_date with _ | d
      · exact (processDueTask_skip_cases now s a).1 hd
      · rcases hc : classifyDueDate now d with _ | ty
        · exact (processDueTask_skip_cases now s a).2.1 d hd hc
        · exact (processDueTask_skip_cases now s a).2.2 d ty hd hc
            (h a (List.mem_cons_self a rest) d ty hd hc)
    rw [List.foldl_cons, ha]
    exact ih s (fun t ht => h t (List.mem_cons_of_mem a ht))

/-- Claim C5: running the due-date scan twice in succession over the same
state creates nothing on the second run — every per-bucket counter and the
total are zero — because the first run leaves an unread notification of the
classified type for every classified task. -/
theorem generate_due_date_notifications_idempotent (now : Int) (db : DB) :
    (NotificationService.generate_due_date_notifications now
      (NotificationService.generate_due_date_notifications now db).1).2 =
      { due_today := 0, due_soon := 0, overdue := 0 } ∧
    (NotificationService.generate_due_date_notifications now
      (NotificationService.generate_due_date_notifications now db).1).2.total = 0 := by
  unfold NotificationService.generate_due_date_notifications
  dsimp only
  rw [foldl_processDueTask_tasks_eq]
  dsimp only
  rw [foldl_processDueTask_noop now (db.tasks.filter dueTaskFilter)
    { db := ((db.tasks.filter dueTaskFilter).foldl (processDueTask now)
        { db := db, counts := { due_today := 0, due_soon := 0, overdue := 0 } }).db
      counts := { due_today := 0, due_soon := 0, overdue := 0 } }
    (fun t ht d ty hd hc =>
      foldl_processDueTask_all_classified_exist now (db.tasks.filter dueTaskFilter)
        { db := db, counts := { due_today := 0, due_soon := 0, overdue := 0 } }
        t ht d ty hd hc)]
  exact ⟨rfl, rfl⟩

/-- Claim C6: the scan considers exactly the tasks with a non-null due date
and non-DONE status; a naive due date is reinterpreted as UTC; the loop body
classifies by the first-match chain OVERDUE / DUE_TODAY / DUE_SOON / none
exactly as the specification words it, with `today_end` the last microsecond
(23:59:59.999999) of the current UTC day and `tomorrow_end` 24h later; an
unclassified task produces nothing. -/
theorem due_date_classification_spec (now : Int) (d : PyDateTime) (db : DB) (t : Task) :
    classifyDueDate now d = spec_classify now (normalizeUTC d).usec ∧
    (normalizeUTC d).usec = d.usec ∧
    (normalizeUTC d).aware = true ∧
    (t ∈ db.tasks.filter dueTaskFilter ↔
      t ∈ db.tasks ∧ t.due_date ≠ none ∧ t.status ≠ TaskStatus.done) ∧
    todayEnd now % usecPerDay = usecPerDay - 1 ∧
    todayEnd now / usecPerDay = now / usecPerDay ∧
    tomorrowEnd now = todayEnd now + usecPerDay ∧
    (∀ s ty dd, t.due_date = some dd → classifyDueDate now dd = some ty →
      NotificationRepository.exists_for_task_and_type (processDueTask now s t).db
        t.id ty = true) ∧
    (∀ s dd, t.due_date = some dd → classifyDueDate now dd = none →
      processDueTask now s t = s) := by
  refine ⟨rfl, ?_, ?_, ?_, ?_, ?_, ?_, ?_, ?_⟩
  · unfold normalizeUTC
    split <;> rfl
  · unfold normalizeUTC
    split
    · next h => exact h
    · rfl
  · simp only [List.mem_filter, dueTaskFilter, Bool.and_eq_true, bne_iff_ne,
      Option.isSome_iff_ne_none, ne_eq, and_assoc]
  · unfold todayEnd usecPerDay endOfDayOffset
    omega
  · unfold todayEnd usecPerDay endOfDayOffset
    omega
  · rfl
  · intro s ty dd hd hc
    exact processDueTask_creates_classified now s t dd ty hd hc
  · intro s dd hd hc
    exact (processDueTask_skip_cases now s t).2.1 dd hd hc

/-- Witness for C6: one day before an epoch-midnight `now`, a naive due
date classifies as OVERDUE, matching the spec-side classifier. -/
theorem due_date_classification_spec_witness :
    classifyDueDate 0 { usec := -1, aware := false } =
      spec_classify 0 (normalizeUTC { usec := -1, aware := false }).usec ∧
    classifyDueDate 0 { usec := -1, aware := false } = some NotificationType.overdue :=
  ⟨(due_date_classification_spec 0 { usec := -1, aware := false } sampleDB sampleTask).1,
   by decide⟩

end TaskManager
